import Mathlib

/-!
# Verification of the imxrt-async-hal DMA core

A shallow embedding of the DMA transfer engine of `imxrt-async-hal`
(`src/dma.rs`, `src/dma/interrupt.rs`, `src/dma/peripheral.rs`,
`src/dma/pipe.rs`) together with proofs about the behaviour of the
pipe rendezvous protocol, the interrupt-driven completion future, the
interrupt handler, and the `receive`/`transfer` orchestration.

Modelling conventions:

* Machine integers are `Nat`/`Int` with explicit wrapping
  (`wrapI16`, `wrapI32`, `toU16`) exactly where the Rust code casts.
* Hardware registers of one DMA channel are a record `ChannelHW`;
  register reads/writes become field reads/record updates, one Lean
  function per Rust `Channel` method, keeping the source's names.
* Wakers are abstract tokens (`Nat`); `wake()` calls are collected in
  an output list.  `compiler_fence` is a no-op in this sequential
  model: instruction order is the program order of the embedding.
* Code that panics via `unreachable` is modelled by returning `none`.
* The busy-wait `while channel.is_hardware_signaling() {}` is modelled
  by its exit condition: the post-state has the hardware-request-status
  flag clear (the loop exits exactly when that flag reads false).
-/

namespace ImxrtAsyncHal

/-! ## Shared-state constants (`src/dma/interrupt.rs`, `mod state`) -/

def state.UNDEFINED : Nat := 0

def state.READY : Nat := 1

def state.PENDING : Nat := 2

def state.COMPLETE : Nat := 3

def state.DROPPED : Nat := 4

/-! ## Machine-integer casts -/

/-- `x as i16` two's-complement wrap of an integer into `[-2^15, 2^15)`. -/
def wrapI16 (x : Int) : Int := (x + 32768) % 65536 - 32768

/-- `x as i32` two's-complement wrap of an integer into `[-2^31, 2^31)`. -/
def wrapI32 (x : Int) : Int := (x + 2147483648) % 4294967296 - 2147483648

/-- `n as u16`: truncation of a `usize` to 16 bits. -/
def toU16 (n : Nat) : Nat := n % 65536

/-! ## Transfer descriptors (`src/dma.rs`, `struct Transfer`) -/

/-- One endpoint of a DMA transfer: `Transfer<E>` from `src/dma.rs`.
Addresses are abstract `Nat` pointers; `offset` is the `i16` field,
`last_address_adjustment` the `i32` field. -/
structure Transfer where
  address : Nat
  offset : Int
  modulo : Nat
  last_address_adjustment : Int
deriving DecidableEq, Repr

/-- `Transfer::hardware`: fixed peripheral-register endpoint. -/
def Transfer.hardware (address : Nat) : Transfer :=
  { address := address
    offset := 0
    modulo := 0
    last_address_adjustment := 0 }

/-- `Transfer::buffer`: linear-buffer endpoint for a slice of `len`
elements of size `elemSize` bytes; mirrors
`offset = size_of::<E>() as i16` and
`last_address_adjustment = ((len * size_of::<E>()) as i32).wrapping_neg()`. -/
def Transfer.buffer (address len elemSize : Nat) : Transfer :=
  { address := address
    offset := wrapI16 elemSize
    modulo := 0
    last_address_adjustment := wrapI32 (-(wrapI32 (len * elemSize))) }

/-- `Transfer::buffer_mut`: identical fields to `Transfer::buffer`. -/
def Transfer.buffer_mut (address len elemSize : Nat) : Transfer :=
  Transfer.buffer address len elemSize

/-- Modelled from the spec: `Transfer::buffer_linear(data, len)` is called
by `src/dma/pipe.rs` but its definition is not under `src/`.  Per §4.1 of
the spec, a linear-buffer endpoint uses offset = element size, zero
modulo, and last-address adjustment `-(length * element size)`; it is the
same descriptor `Transfer::buffer` builds. -/
def Transfer.buffer_linear (address len elemSize : Nat) : Transfer :=
  Transfer.buffer address len elemSize

/-! ## Channel hardware registers (`src/dma.rs`, `struct Channel`) -/

/-- The transfer-control-descriptor register block of one channel. -/
structure TCD where
  SADDR : Nat
  SOFF : Int
  SMOD : Nat
  SSIZE : Nat
  SLAST : Int
  DADDR : Nat
  DOFF : Int
  DMOD : Nat
  DSIZE : Nat
  DLAST_SGA : Int
  NBYTES : Nat
  CITER : Nat
  BITER : Nat
  DREQ : Bool
  INTMAJOR : Bool
  DONE : Bool
deriving DecidableEq, Repr

/-- The registers of one DMA channel that the code reads or writes:
the TCD, the request-enable bit (`ERQ`, set/cleared through
`SERQ`/`CERQ`), the interrupt-pending bit (`INT`), the error bit
(`ERR`), the global error-status register (`ES`), the
hardware-request-status bit (`HRS`), the channel's multiplexer
configuration (`chcfg`), and whether a software start was requested
(`SSRT`). -/
structure ChannelHW where
  tcd : TCD
  ERQ : Bool
  INT : Bool
  ERR : Bool
  ES : Nat
  HRS : Bool
  chcfg : Nat
  SSRT : Bool
deriving DecidableEq, Repr

/-- `MultiplexerRegisters::ENBL`.  Modelled from the spec: `register.rs`
is not under `src/`; the exact bit position is immaterial to the claims,
only that hardware-trigger and always-on configurations write it. -/
def MUX_ENBL : Nat := 2147483648

/-- `MultiplexerRegisters::A_ON` (always-on mode bit); as `MUX_ENBL`,
modelled from the spec. -/
def MUX_A_ON : Nat := 536870912

/-- `Channel::set_source_transfer` with `sid = E::DATA_TRANSFER_ID`. -/
def ChannelHW.set_source_transfer (hw : ChannelHW) (t : Transfer) (sid : Nat) : ChannelHW :=
  { hw with tcd := { hw.tcd with
      SADDR := t.address
      SOFF := t.offset
      SSIZE := sid
      SMOD := t.modulo
      SLAST := t.last_address_adjustment } }

/-- `Channel::set_destination_transfer` with `did = E::DATA_TRANSFER_ID`. -/
def ChannelHW.set_destination_transfer (hw : ChannelHW) (t : Transfer) (did : Nat) : ChannelHW :=
  { hw with tcd := { hw.tcd with
      DADDR := t.address
      DOFF := t.offset
      DSIZE := did
      DMOD := t.modulo
      DLAST_SGA := t.last_address_adjustment } }

/-- `Channel::set_minor_loop_bytes`. -/
def ChannelHW.set_minor_loop_bytes (hw : ChannelHW) (nbytes : Nat) : ChannelHW :=
  { hw with tcd := { hw.tcd with NBYTES := nbytes } }

/-- `Channel::set_minor_loop_elements::<E>(len)` with `elemSize = size_of::<E>()`. -/
def ChannelHW.set_minor_loop_elements (hw : ChannelHW) (elemSize len : Nat) : ChannelHW :=
  hw.set_minor_loop_bytes (elemSize * len)

/-- `Channel::set_transfer_iterations` (argument already truncated to
`u16` at every call site, as in the source). -/
def ChannelHW.set_transfer_iterations (hw : ChannelHW) (iterations : Nat) : ChannelHW :=
  { hw with tcd := { hw.tcd with CITER := iterations, BITER := iterations } }

/-- `Channel::set_trigger_from_hardware`: the final multiplexer value
after the `write(0)`-then-`write(ENBL | source)` sequence. -/
def ChannelHW.set_trigger_from_hardware (hw : ChannelHW) (source : Option Nat) : ChannelHW :=
  match source with
  | some s => { hw with chcfg := MUX_ENBL ||| s }
  | none => { hw with chcfg := 0 }

/-- `Channel::set_always_on`. -/
def ChannelHW.set_always_on (hw : ChannelHW) : ChannelHW :=
  { hw with chcfg := MUX_ENBL ||| MUX_A_ON }

/-- `Channel::is_hardware_signaling`. -/
def ChannelHW.is_hardware_signaling (hw : ChannelHW) : Bool := hw.HRS

/-- `Channel::set_enable` (a `SERQ`/`CERQ` write). -/
def ChannelHW.set_enable (hw : ChannelHW) (b : Bool) : ChannelHW :=
  { hw with ERQ := b }

/-- Modelled from the spec: `Channel::enable`, invoked by the futures in
`pipe.rs` and `interrupt.rs`, is not defined under `src/`; per §4.1 it
enables the channel, i.e. sets the request-enable bit that
`is_enabled` reads, as `set_enable(true)` does. -/
def ChannelHW.enable (hw : ChannelHW) : ChannelHW := hw.set_enable true

/-- Modelled from the spec: `Channel::disable`, the counterpart of
`ChannelHW.enable`; clears the request-enable bit. -/
def ChannelHW.disable (hw : ChannelHW) : ChannelHW := hw.set_enable false

/-- `Channel::is_interrupt`. -/
def ChannelHW.is_interrupt (hw : ChannelHW) : Bool := hw.INT

/-- `Channel::clear_interrupt` (a `CINT` write). -/
def ChannelHW.clear_interrupt (hw : ChannelHW) : ChannelHW :=
  { hw with INT := false }

/-- `Channel::set_disable_on_completion`. -/
def ChannelHW.set_disable_on_completion (hw : ChannelHW) (dreq : Bool) : ChannelHW :=
  { hw with tcd := { hw.tcd with DREQ := dreq } }

/-- `Channel::set_interrupt_on_completion`. -/
def ChannelHW.set_interrupt_on_completion (hw : ChannelHW) (intr : Bool) : ChannelHW :=
  { hw with tcd := { hw.tcd with INTMAJOR := intr } }

/-- `Channel::is_complete` (the TCD `DONE` flag). -/
def ChannelHW.is_complete (hw : ChannelHW) : Bool := hw.tcd.DONE

/-- `Channel::clear_complete` (a `CDNE` write). -/
def ChannelHW.clear_complete (hw : ChannelHW) : ChannelHW :=
  { hw with tcd := { hw.tcd with DONE := false } }

/-- `Channel::is_error`. -/
def ChannelHW.is_error (hw : ChannelHW) : Bool := hw.ERR

/-- `Channel::clear_error` (a `CERR` write). -/
def ChannelHW.clear_error (hw : ChannelHW) : ChannelHW :=
  { hw with ERR := false }

/-- `Channel::is_enabled`. -/
def ChannelHW.is_enabled (hw : ChannelHW) : Bool := hw.ERQ

/-- `Channel::error_status` (the global `ES` register). -/
def ChannelHW.error_status (hw : ChannelHW) : Nat := hw.ES

/-- `Channel::start` (a `SSRT` write; records a software service request). -/
def ChannelHW.start (hw : ChannelHW) : ChannelHW :=
  { hw with SSRT := true }

/-! ## Shared channel state (`src/dma/interrupt.rs`, `struct Shared`) -/

/-- One shared-state slot: an atomic status word plus a parked waker.
Wakers are abstract `Nat` tokens. -/
structure Shared where
  state : Nat
  waker : Option Nat
deriving DecidableEq, Repr

/-- `Shared::set_state`. -/
def Shared.set_state (s : Shared) (st : Nat) : Shared :=
  { s with state := st }

/-- The state the claims operate on: one channel's registers, the two
shared-state slots indexed by that channel number (`SHARED_STATES[idx]`;
slot 0 = sender / one-shot slot, slot 1 = receiver slot), and the
peripheral's DMA-request-enable bit (the state toggled by
`enable_source`/`disable_source` resp. `enable_destination`/
`disable_destination` of the endpoint contract). -/
structure SysState where
  hw : ChannelHW
  slot0 : Shared
  slot1 : Shared
  periph : Bool
deriving DecidableEq, Repr

/-! ## Errors and poll results -/

/-- `dma::Error` (`ErrorStatus` is its raw `u32`, modelled as `Nat`). -/
inductive Error where
  | scheduledTransfer : Error
  | setup (es : Nat) : Error
  | cancelled : Error
deriving DecidableEq, Repr

/-- `core::task::Poll`. -/
inductive PollRes (α : Type) where
  | ready (a : α) : PollRes α
  | pending : PollRes α
deriving DecidableEq, Repr

/-- `Result<T, dma::Error>`. -/
inductive TResult (α : Type) where
  | ok (a : α) : TResult α
  | fail (e : Error) : TResult α
deriving DecidableEq, Repr

/-! ## The interrupt handler (`src/dma/interrupt.rs`, `on_interrupt`) -/

/-- `on_interrupt(idx)` for the channel of the state: clear the
interrupt-pending bit if set; if the channel's completion flag is set,
mark every slot for the channel `COMPLETE` and take-then-wake each
parked waker (slot 0 first, then slot 1).  The returned list holds the
woken wakers, in invocation order. -/
def on_interrupt (s : SysState) : SysState × List Nat :=
  let hw := if s.hw.is_interrupt then s.hw.clear_interrupt else s.hw
  if hw.is_complete then
    ({ s with
        hw := hw
        slot0 := { state := state.COMPLETE, waker := none }
        slot1 := { state := state.COMPLETE, waker := none } },
      s.slot0.waker.toList ++ s.slot1.waker.toList)
  else
    ({ s with hw := hw }, [])

/-! ## The completion future (`src/dma/interrupt.rs`, `Interrupt`) -/

/-- The local state word of the `Interrupt` future. -/
structure InterruptFut where
  state : Nat
deriving DecidableEq, Repr

/-- `interrupt(channel, on_drop)`: sets disable-on-completion and
interrupt-on-completion, and produces a future in the `READY` state. -/
def interrupt (hw : ChannelHW) : InterruptFut × ChannelHW :=
  (⟨state.READY⟩, (hw.set_disable_on_completion true).set_interrupt_on_completion true)

/-- `<Interrupt as Future>::poll`, with the match arms in source order.
The `unreachable` arm is `none`.  The waker `w` is `cx.waker()`. -/
def Interrupt.poll (fut : InterruptFut) (s : SysState) (w : Nat) :
    Option (PollRes (TResult Unit) × InterruptFut × SysState) :=
  if fut.state = state.PENDING ∧ s.hw.is_complete = true then
    some (.ready (.ok ()), ⟨state.COMPLETE⟩, { s with hw := s.hw.clear_complete })
  else if fut.state = state.PENDING then
    some (.pending, fut, s)
  else if fut.state = state.READY ∧ s.hw.is_enabled = true then
    some (.ready (.fail .scheduledTransfer), fut, s)
  else if fut.state = state.READY then
    let s1 : SysState := { s with slot0 := { s.slot0 with waker := some w } }
    let hw1 := s1.hw.enable
    if hw1.is_error = true then
      let hw2 := hw1.disable
      let es := hw2.error_status
      some (.ready (.fail (.setup es)), ⟨state.UNDEFINED⟩,
        { s1 with hw := hw2.clear_error, slot0 := { s1.slot0 with waker := none } })
    else
      some (.pending, ⟨state.PENDING⟩, { s1 with hw := hw1 })
  else
    none

/-- `<Interrupt as Drop>::drop`: run the caller-supplied `on_drop`
action, disable the channel, clear its completion flag, clear the
slot's parked waker. -/
def Interrupt.drop (onDrop : SysState → SysState) (s : SysState) : SysState :=
  let s1 := onDrop s
  { s1 with
      hw := (s1.hw.disable).clear_complete
      slot0 := { s1.slot0 with waker := none } }

/-! ## `receive`/`transfer` orchestration (`src/dma/peripheral.rs`)

The `Source`/`Destination` endpoint is abstracted by its data: the
request signal `sig`, the register address, the element transfer id
`eid`, and the peripheral request bit `SysState.periph` toggled by the
enable/disable hooks. -/

/-- `source.enable_source()` / `destination.enable_destination()`. -/
def enable_peripheral (s : SysState) : SysState := { s with periph := true }

/-- `source.disable_source()` / `destination.disable_destination()`. -/
def disable_peripheral (s : SysState) : SysState := { s with periph := false }

/-- Exit of the busy-wait `while channel.is_hardware_signaling() {}`:
the loop terminates exactly when the `HRS` bit reads false, so the
post-state has it clear. -/
def wait_hardware_signal_clear (s : SysState) : SysState :=
  { s with hw := { s.hw with HRS := false } }

/-- The `on_drop` closure passed by `receive`: `source.disable_source()`
then busy-wait until the channel stops hardware-signaling.  (`transfer`
passes the same shape with `destination.disable_destination()`.) -/
def peripheral_on_drop (s : SysState) : SysState :=
  wait_hardware_signal_clear (disable_peripheral s)

/-- The register set-up performed by `receive(channel, source, buffer)`
before awaiting: trigger from hardware on `sig`, hardware source
endpoint at `srcAddr`, linear-buffer destination endpoint over the
caller's buffer, one element per minor loop, `buffer.len() as u16`
major iterations, then enable the peripheral's request. -/
def receive_setup (sig srcAddr eid bufAddr len elemSize : Nat) (s : SysState) : SysState :=
  let hw := s.hw.set_trigger_from_hardware (some sig)
  let hw := hw.set_source_transfer (Transfer.hardware srcAddr) eid
  let hw := hw.set_destination_transfer (Transfer.buffer_mut bufAddr len elemSize) eid
  let hw := hw.set_minor_loop_elements elemSize 1
  let hw := hw.set_transfer_iterations (toU16 len)
  enable_peripheral { s with hw := hw }

/-- The register set-up performed by `transfer(channel, destination,
buffer)` before awaiting: the mirror image of `receive_setup`. -/
def transfer_setup (sig dstAddr eid bufAddr len elemSize : Nat) (s : SysState) : SysState :=
  let hw := s.hw.set_trigger_from_hardware (some sig)
  let hw := hw.set_destination_transfer (Transfer.hardware dstAddr) eid
  let hw := hw.set_source_transfer (Transfer.buffer bufAddr len elemSize) eid
  let hw := hw.set_minor_loop_elements elemSize 1
  let hw := hw.set_transfer_iterations (toU16 len)
  enable_peripheral { s with hw := hw }

/-- The body of `receive`/`transfer` after its set-up `setup`:
construct the `Interrupt` future (`interrupt(channel, on_drop)`),
poll it; if it resolves at once, drop it and propagate (`.await?`),
mapping success to `Ok(buffer.len())`.  If it suspends, the hardware
eventually completes the transfer (the `DONE` flag sets — the one
environment step of the run), the future is polled again, then dropped.
Every exit path ends in `Interrupt.drop peripheral_on_drop`, exactly as
the `.await` of a temporary does in the source. -/
def interrupt_await_run (setup : SysState → SysState) (len : Nat) (s0 : SysState)
    (w : Nat) : Option (TResult Nat × SysState) :=
  let s1 := setup s0
  let (fut, hw1) := interrupt s1.hw
  let s2 := { s1 with hw := hw1 }
  match Interrupt.poll fut s2 w with
  | none => none
  | some (.ready r, _, s3) =>
      some ((match r with | .ok _ => .ok len | .fail e => .fail e),
        Interrupt.drop peripheral_on_drop s3)
  | some (.pending, fut2, s3) =>
      let s4 := { s3 with hw := { s3.hw with tcd := { s3.hw.tcd with DONE := true } } }
      match Interrupt.poll fut2 s4 w with
      | some (.ready r, _, s5) =>
          some ((match r with | .ok _ => .ok len | .fail e => .fail e),
            Interrupt.drop peripheral_on_drop s5)
      | _ => none

/-- The body of `receive`/`transfer` when the caller drops the pending
operation before completion: set-up, first poll suspends, then the
`Interrupt` future is dropped. -/
def interrupt_await_cancelled (setup : SysState → SysState) (s0 : SysState)
    (w : Nat) : Option SysState :=
  let s1 := setup s0
  let (fut, hw1) := interrupt s1.hw
  let s2 := { s1 with hw := hw1 }
  match Interrupt.poll fut s2 w with
  | some (.pending, _, s3) => some (Interrupt.drop peripheral_on_drop s3)
  | _ => none

/-- `receive(channel, source, buffer)` run to its return. -/
def receive_run (sig srcAddr eid bufAddr len elemSize : Nat) (s0 : SysState)
    (w : Nat) : Option (TResult Nat × SysState) :=
  interrupt_await_run (receive_setup sig srcAddr eid bufAddr len elemSize) len s0 w

/-- `transfer(channel, destination, buffer)` run to its return. -/
def transfer_run (sig dstAddr eid bufAddr len elemSize : Nat) (s0 : SysState)
    (w : Nat) : Option (TResult Nat × SysState) :=
  interrupt_await_run (transfer_setup sig dstAddr eid bufAddr len elemSize) len s0 w

/-- `receive` dropped while pending. -/
def receive_cancelled (sig srcAddr eid bufAddr len elemSize : Nat) (s0 : SysState)
    (w : Nat) : Option SysState :=
  interrupt_await_cancelled (receive_setup sig srcAddr eid bufAddr len elemSize) s0 w

/-- `transfer` dropped while pending. -/
def transfer_cancelled (sig dstAddr eid bufAddr len elemSize : Nat) (s0 : SysState)
    (w : Nat) : Option SysState :=
  interrupt_await_cancelled (transfer_setup sig dstAddr eid bufAddr len elemSize) s0 w

/-! ## Pipe (`src/dma/pipe.rs`)

Slot 0 is the sender's (`SENDER_STATE`), slot 1 the receiver's
(`RECEIVER_STATE`).  The element type `E` enters through
`size_of_val(value)` (`len` below); both halves build `u8`-element
descriptors (`*const u8` pointers), whose `DATA_TRANSFER_ID` is
`U8_DATA_TRANSFER_ID`. -/

/-- Modelled from the spec: `u8::DATA_TRANSFER_ID` lives in
`element.rs`, which is not under `src/`.  Its value only lands in the
`SSIZE`/`DSIZE` field and no claim depends on it. -/
def U8_DATA_TRANSFER_ID : Nat := 0

/-- `pipe::new`: place the channel into always-on +
interrupt-on-completion + disable-on-completion mode. -/
def pipe_new (s : SysState) : SysState :=
  { s with hw :=
      ((s.hw.set_always_on).set_interrupt_on_completion true).set_disable_on_completion true }

/-- The statement `shared_mut(..)[SENDER_STATE].set_state(state::READY)`
at the top of `Sender::send`. -/
def send_init (s : SysState) : SysState :=
  { s with slot0 := s.slot0.set_state state.READY }

/-- The statement `shared_mut(..)[RECEIVER_STATE].set_state(state::READY)`
at the top of `Receiver::receive`. -/
def receive_init (s : SysState) : SysState :=
  { s with slot1 := s.slot1.set_state state.READY }

/-- `<Send as Future>::poll`, match arms in source order over
`(sender_state, receiver_state)`; `addr`/`len` are
`value as *const u8` and `size_of_val(value)`.  The `unreachable` arm
is `none`. -/
def Send.poll (s : SysState) (w addr len : Nat) :
    Option (PollRes (TResult Unit) × SysState) :=
  let sender_state := s.slot0.state
  let receiver_state := s.slot1.state
  if receiver_state = state.DROPPED then
    some (.ready (.fail .cancelled), s)
  else if sender_state = state.READY then
    let hw := s.hw.set_minor_loop_elements 1 1
    let hw := hw.set_transfer_iterations (toU16 len)
    let hw := hw.set_source_transfer (Transfer.buffer_linear addr len 1) U8_DATA_TRANSFER_ID
    let hw := if receiver_state = state.PENDING then (hw.enable).start else hw
    some (.pending, { s with hw := hw, slot0 := { state := state.PENDING, waker := some w } })
  else if sender_state = state.COMPLETE then
    some (.ready (.ok ()), s)
  else if sender_state = state.PENDING then
    some (.pending, s)
  else
    none

/-- `<Receive as Future>::poll`, match arms in source order over
`(receiver_state, sender_state)`; `addr` is `value.as_mut_ptr()`,
`len` is `size_of::<E>()`, and `mem` the bytes the hardware deposited
in the `MaybeUninit` buffer (what `assume_init` reads). -/
def Receive.poll (s : SysState) (w addr len mem : Nat) :
    Option (PollRes (TResult Nat) × SysState) :=
  let receiver_state := s.slot1.state
  let sender_state := s.slot0.state
  if sender_state = state.DROPPED then
    some (.ready (.fail .cancelled), s)
  else if receiver_state = state.READY then
    let hw := s.hw.set_destination_transfer (Transfer.buffer_linear addr len 1)
      U8_DATA_TRANSFER_ID
    let hw := if sender_state = state.PENDING then (hw.enable).start else hw
    some (.pending, { s with hw := hw, slot1 := { state := state.PENDING, waker := some w } })
  else if receiver_state = state.COMPLETE then
    some (.ready (.ok mem), s)
  else if receiver_state = state.PENDING then
    some (.pending, s)
  else
    none

/-- `<Send as Drop>::drop`: disable the channel, set the sender slot
back to `UNDEFINED`. -/
def Send.dropFut (s : SysState) : SysState :=
  { s with hw := s.hw.disable, slot0 := s.slot0.set_state state.UNDEFINED }

/-- `<Receive as Drop>::drop`: disable the channel, set the receiver
slot back to `UNDEFINED`. -/
def Receive.dropFut (s : SysState) : SysState :=
  { s with hw := s.hw.disable, slot1 := s.slot1.set_state state.UNDEFINED }

/-- `<Sender as Drop>::drop`: set the sender slot `DROPPED`, take the
waker parked in the receiver slot and wake it.  The second component
lists the woken wakers. -/
def Sender.drop (s : SysState) : SysState × List Nat :=
  let s1 := { s with slot0 := s.slot0.set_state state.DROPPED }
  match s1.slot1.waker with
  | some w => ({ s1 with slot1 := { s1.slot1 with waker := none } }, [w])
  | none => (s1, [])

/-- `<Receiver as Drop>::drop`: set the receiver slot `DROPPED`, take
the waker parked in the sender slot and wake it. -/
def Receiver.drop (s : SysState) : SysState × List Nat :=
  let s1 := { s with slot1 := s.slot1.set_state state.DROPPED }
  match s1.slot0.waker with
  | some w => ({ s1 with slot0 := { s1.slot0 with waker := none } }, [w])
  | none => (s1, [])

/-- Post-state of a `Send` poll (the future's own state transition). -/
def Send.pollState (s : SysState) (w addr len : Nat) : SysState :=
  match Send.poll s w addr len with
  | some (_, s2) => s2
  | none => s

/-- Post-state of a `Receive` poll. -/
def Receive.pollState (s : SysState) (w addr len mem : Nat) : SysState :=
  match Receive.poll s w addr len mem with
  | some (_, s2) => s2
  | none => s

/-- The operations the surviving receiver half can still perform after
the sender was dropped: begin a `receive` call, poll its future, drop
its future. -/
inductive RxOp where
  | init : RxOp
  | pollOp (w addr len mem : Nat) : RxOp
  | dropFut : RxOp
deriving DecidableEq, Repr

/-- Apply one receiver-side operation. -/
def applyRxOp (s : SysState) : RxOp → SysState
  | .init => receive_init s
  | .pollOp w addr len mem => Receive.pollState s w addr len mem
  | .dropFut => Receive.dropFut s

/-- Apply a sequence of receiver-side operations. -/
def applyRxOps (s : SysState) (ops : List RxOp) : SysState :=
  ops.foldl applyRxOp s

/-- The operations the surviving sender half can still perform after
the receiver was dropped. -/
inductive TxOp where
  | init : TxOp
  | pollOp (w addr len : Nat) : TxOp
  | dropFut : TxOp
deriving DecidableEq, Repr

/-- Apply one sender-side operation. -/
def applyTxOp (s : SysState) : TxOp → SysState
  | .init => send_init s
  | .pollOp w addr len => Send.pollState s w addr len
  | .dropFut => Send.dropFut s

/-- Apply a sequence of sender-side operations. -/
def applyTxOps (s : SysState) (ops : List TxOp) : SysState :=
  ops.foldl applyTxOp s

/-! ## Concrete states for witnesses and counterexamples -/

/-- An all-clear channel register file. -/
def hw0 : ChannelHW :=
  { tcd :=
      { SADDR := 0, SOFF := 0, SMOD := 0, SSIZE := 0, SLAST := 0
        DADDR := 0, DOFF := 0, DMOD := 0, DSIZE := 0, DLAST_SGA := 0
        NBYTES := 0, CITER := 0, BITER := 0
        DREQ := false, INTMAJOR := false, DONE := false }
    ERQ := false, INT := false, ERR := false, ES := 0
    HRS := false, chcfg := 0, SSRT := false }

/-- A quiescent system state. -/
def sys0 : SysState :=
  { hw := hw0
    slot0 := { state := state.UNDEFINED, waker := none }
    slot1 := { state := state.UNDEFINED, waker := none }
    periph := false }

/-- A state whose channel is already enabled. -/
def sysEnabled : SysState :=
  { sys0 with hw := { hw0 with ERQ := true } }

/-- A state whose channel reports a hardware error with status 77. -/
def sysError : SysState :=
  { sys0 with hw := { hw0 with ERR := true, ES := 77 } }

/-- A completed channel with an error flag still set and the channel
enabled: the state of a transfer that failed mid-flight. -/
def sysErrPending : SysState :=
  { sys0 with hw := { hw0 with ERR := true, ERQ := true } }

/-- A channel whose hardware completion flag is set while the
shared-state slot still reads `PENDING` (the interrupt handler has not
run yet). -/
def sysDoneSlotPending : SysState :=
  { sys0 with
      hw := { hw0 with tcd := { hw0.tcd with DONE := true } }
      slot0 := { state := state.PENDING, waker := some 3 } }

/-- A completing channel with an interrupt pending and a waker parked
in each slot. -/
def sysIsrReady : SysState :=
  { sys0 with
      hw := { hw0 with INT := true, tcd := { hw0.tcd with DONE := true } }
      slot0 := { state := state.PENDING, waker := some 5 }
      slot1 := { state := state.PENDING, waker := some 9 } }

/-- A pipe state in which both halves have registered `Ready`. -/
def sysBothReady : SysState :=
  { sys0 with
      slot0 := { state := state.READY, waker := none }
      slot1 := { state := state.READY, waker := none } }

/-- A pipe state whose sender slot is `Ready` while the receiver slot
is already `Dropped`. -/
def sysReadyPeerDropped : SysState :=
  { sys0 with
      slot0 := { state := state.READY, waker := none }
      slot1 := { state := state.DROPPED, waker := none } }

/-- A pipe whose receiver is parked `Pending` with waker 7 while the
sender half is being dropped. -/
def sysRxParked : SysState :=
  { sys0 with
      slot0 := { state := state.UNDEFINED, waker := none }
      slot1 := { state := state.PENDING, waker := some 7 } }

/-! ## Arithmetic helper lemmas -/

theorem wrapI16_eq_of_lt {n : Nat} (h : n < 32768) : wrapI16 n = n := by
  unfold wrapI16
  omega

theorem wrapI32_neg_wrapI32_eq {n : Nat} (h : n ≤ 2147483648) :
    wrapI32 (-(wrapI32 n)) = -(n : Int) := by
  unfold wrapI32
  omega

/-! ## C8: transfer-descriptor construction -/

/-- C8: a hardware endpoint's descriptor has the given fixed address,
offset 0, modulo 0, last-address adjustment 0; a linear-buffer
endpoint's descriptor has the buffer's start address, offset =
element size, modulo 0, last-address adjustment `-(len * element size)`
bytes.  The hypotheses are the representability bounds Rust guarantees
for every real slice (`len * size_of::<E>() <= isize::MAX`) and element
type. -/
theorem c8_descriptor_construction (addr srcAddr len elemSize : Nat)
    (hsz : elemSize < 32768) (hlen : len * elemSize ≤ 2147483648) :
    Transfer.hardware srcAddr =
      { address := srcAddr, offset := 0, modulo := 0, last_address_adjustment := 0 } ∧
    (Transfer.buffer addr len elemSize).address = addr ∧
    (Transfer.buffer addr len elemSize).offset = elemSize ∧
    (Transfer.buffer addr len elemSize).modulo = 0 ∧
    (Transfer.buffer addr len elemSize).last_address_adjustment = -((len * elemSize : Nat) : Int) := by
  refine ⟨rfl, rfl, ?_, rfl, ?_⟩
  · exact wrapI16_eq_of_lt hsz
  · exact wrapI32_neg_wrapI32_eq hlen

/-- Witness for C8 at a 16-element buffer of 4-byte elements. -/
theorem c8_descriptor_construction_witness :
    (Transfer.buffer 4096 16 4).offset = 4 ∧
    (Transfer.buffer 4096 16 4).last_address_adjustment = -64 := by
  have h := c8_descriptor_construction 4096 8192 16 4 (by decide) (by decide)
  exact ⟨h.2.2.1, h.2.2.2.2⟩

/-! ## C10: polling an already-resolved Interrupt future -/

/-- C10: `Interrupt::poll` reaches the `unreachable` arm (modelled as
`none`) exactly when its local state is neither `READY` nor `PENDING`;
in particular it panics when polled again after resolving (local state
`COMPLETE` after `Ok`, `UNDEFINED` after a `Setup` error). -/
theorem c10_poll_total_iff (fut : InterruptFut) (s : SysState) (w : Nat) :
    ((Interrupt.poll fut s w).isSome = true ↔
      fut.state = state.READY ∨ fut.state = state.PENDING) ∧
    Interrupt.poll ⟨state.COMPLETE⟩ s w = none ∧
    Interrupt.poll ⟨state.UNDEFINED⟩ s w = none := by
  unfold Interrupt.poll
  refine ⟨?_, by simp [state.COMPLETE, state.PENDING, state.READY, state.UNDEFINED], ?_⟩
  · split_ifs with h1 h2 h3 h4
    · simp_all
    · simp_all
    · simp_all
    · dsimp only
      split <;> simp_all
    · simp_all
  · simp [state.UNDEFINED, state.PENDING, state.READY]

/-! ## C7: ScheduledTransfer and Setup error paths -/

/-- C7: polling the completion future in the `Ready` local state while
the channel is already enabled resolves `Err(ScheduledTransfer)` and
changes nothing; a hardware rejection (error flag set right after
enabling) resolves `Err(Setup(es))` where `es` is the error-status
register snapshot, and the final state has the channel disabled again
(and the error flag cleared, the slot's waker empty). -/
theorem c7_ready_error_paths (fut : InterruptFut) (s : SysState) (w : Nat)
    (hf : fut.state = state.READY) :
    (s.hw.ERQ = true →
      Interrupt.poll fut s w = some (.ready (.fail .scheduledTransfer), fut, s)) ∧
    (s.hw.ERQ = false → s.hw.ERR = true →
      Interrupt.poll fut s w =
        some (.ready (.fail (.setup s.hw.ES)), ⟨state.UNDEFINED⟩,
          { s with
              hw := { s.hw with ERQ := false, ERR := false }
              slot0 := { s.slot0 with waker := none } })) := by
  constructor
  · intro hE
    simp [Interrupt.poll, hf, hE, state.READY, state.PENDING,
      ChannelHW.is_complete, ChannelHW.is_enabled]
  · intro hE hR
    simp [Interrupt.poll, hf, hE, hR, state.READY, state.PENDING,
      ChannelHW.is_complete, ChannelHW.is_enabled, ChannelHW.enable,
      ChannelHW.disable, ChannelHW.set_enable, ChannelHW.is_error,
      ChannelHW.error_status, ChannelHW.clear_error]

/-- Witness for C7: the already-enabled case at `sysEnabled` and the
hardware-rejection case at `sysError` with status snapshot 77. -/
theorem c7_ready_error_paths_witness :
    Interrupt.poll ⟨state.READY⟩ sysEnabled 4 =
      some (.ready (.fail .scheduledTransfer), ⟨state.READY⟩, sysEnabled) ∧
    Interrupt.poll ⟨state.READY⟩ sysError 4 =
      some (.ready (.fail (.setup 77)), ⟨state.UNDEFINED⟩,
        { sysError with
            hw := { sysError.hw with ERQ := false, ERR := false }
            slot0 := { sysError.slot0 with waker := none } }) := by
  exact ⟨(c7_ready_error_paths ⟨state.READY⟩ sysEnabled 4 rfl).1 rfl,
    (c7_ready_error_paths ⟨state.READY⟩ sysError 4 rfl).2 rfl rfl⟩

/-! ## C4: the interrupt handler -/

/-- C4: `on_interrupt` clears the interrupt-pending bit when it is set;
and when the channel's completion flag is set it marks both
shared-state slots `COMPLETE`, empties both parked wakers, and the
invoked wakers are exactly the parked ones, each taken (hence invoked)
at most once — the woken list is the concatenation of the two
`Option.toList`s, so each slot contributes its handle exactly once. -/
theorem c4_on_interrupt_wakes (s : SysState) :
    (s.hw.INT = true → (on_interrupt s).1.hw.INT = false) ∧
    (s.hw.tcd.DONE = true →
      (on_interrupt s).1.slot0.state = state.COMPLETE ∧
      (on_interrupt s).1.slot1.state = state.COMPLETE ∧
      (on_interrupt s).1.slot0.waker = none ∧
      (on_interrupt s).1.slot1.waker = none ∧
      (on_interrupt s).2 = s.slot0.waker.toList ++ s.slot1.waker.toList ∧
      ∀ wk : Nat, ((on_interrupt s).2.count wk) ≤
        (s.slot0.waker.toList.count wk) + (s.slot1.waker.toList.count wk)) := by
  constructor
  · intro hI
    simp [on_interrupt, ChannelHW.is_interrupt, ChannelHW.clear_interrupt,
      ChannelHW.is_complete, hI]
    split <;> simp
  · intro hD
    simp [on_interrupt, ChannelHW.is_interrupt, ChannelHW.clear_interrupt,
      ChannelHW.is_complete, hD]
    split <;> simp [List.count_append]

/-- Witness for C4 at a completing channel with wakers 5 and 9 parked. -/
theorem c4_on_interrupt_wakes_witness :
    (on_interrupt sysIsrReady).1.hw.INT = false ∧
    (on_interrupt sysIsrReady).1.slot0.state = state.COMPLETE ∧
    (on_interrupt sysIsrReady).1.slot1.state = state.COMPLETE ∧
    (on_interrupt sysIsrReady).2 = [5, 9] := by
  have h := c4_on_interrupt_wakes sysIsrReady
  have h2 := h.2 (by decide)
  exact ⟨h.1 (by decide), h2.1, h2.2.1, by
    have := h2.2.2.2.2.1
    simpa using this⟩

/-! ## C5: dropping a pending completion future -/

/-- C5 (amended): dropping the completion future runs the cleanup
action (peripheral request withdrawn, busy-wait until the
hardware-service signal clears), then disables the channel, clears its
completion flag and clears the slot's parked waker; afterwards the
channel reads back disabled with the completion flag clear.  The error
flag (and the slot's status word) is left untouched. -/
theorem c5_interrupt_drop_cleanup (s : SysState) :
    (Interrupt.drop peripheral_on_drop s).periph = false ∧
    (Interrupt.drop peripheral_on_drop s).hw.HRS = false ∧
    (Interrupt.drop peripheral_on_drop s).hw.ERQ = false ∧
    (Interrupt.drop peripheral_on_drop s).hw.tcd.DONE = false ∧
    (Interrupt.drop peripheral_on_drop s).slot0.waker = none ∧
    (Interrupt.drop peripheral_on_drop s).hw.ERR = s.hw.ERR ∧
    (Interrupt.drop peripheral_on_drop s).slot0.state = s.slot0.state := by
  simp [Interrupt.drop, peripheral_on_drop, wait_hardware_signal_clear,
    disable_peripheral, ChannelHW.disable, ChannelHW.set_enable,
    ChannelHW.clear_complete]

/-- Counterexample for C5 as stated: dropping the future over a channel
whose error flag is set leaves the error flag set — the claim's
"afterwards the channel reads back disabled with its completion and
error flags clear" is false for the error flag. -/
theorem c5_error_flag_counterexample :
    sysErrPending.hw.ERR = true ∧
    (Interrupt.drop peripheral_on_drop sysErrPending).hw.ERQ = false ∧
    (Interrupt.drop peripheral_on_drop sysErrPending).hw.ERR = true := by
  decide

/-! ## C3: the completion future's state machine -/

theorem wrapI16_one : wrapI16 1 = 1 := by decide

/-- C3 (amended): on the first poll in `Ready` *with the channel not
already enabled*, the future records the waker in slot 0, enables the
channel, and checks the error flag: on error it disables the channel,
clears the slot's waker, and resolves `Err(Setup(es))` with the
error-status snapshot; otherwise it transitions to `Pending` and
suspends.  On later polls in `Pending`: if the channel *hardware's*
completion flag (`TCD DONE`) is set, it clears that flag and resolves
`Ok(())`; otherwise it stays suspended. -/
theorem c3_interrupt_poll_transitions (fut : InterruptFut) (s : SysState) (w : Nat) :
    (fut.state = state.READY → s.hw.ERQ = false → s.hw.ERR = true →
      Interrupt.poll fut s w =
        some (.ready (.fail (.setup s.hw.ES)), ⟨state.UNDEFINED⟩,
          { s with
              hw := { s.hw with ERQ := false, ERR := false }
              slot0 := { s.slot0 with waker := none } })) ∧
    (fut.state = state.READY → s.hw.ERQ = false → s.hw.ERR = false →
      Interrupt.poll fut s w =
        some (.pending, ⟨state.PENDING⟩,
          { s with
              hw := { s.hw with ERQ := true }
              slot0 := { s.slot0 with waker := some w } })) ∧
    (fut.state = state.PENDING → s.hw.tcd.DONE = true →
      Interrupt.poll fut s w =
        some (.ready (.ok ()), ⟨state.COMPLETE⟩,
          { s with hw := { s.hw with tcd := { s.hw.tcd with DONE := false } } })) ∧
    (fut.state = state.PENDING → s.hw.tcd.DONE = false →
      Interrupt.poll fut s w = some (.pending, fut, s)) := by
  refine ⟨fun hf hE hR => ?_, fun hf hE hR => ?_, fun hf hD => ?_, fun hf hD => ?_⟩ <;>
    simp [Interrupt.poll, hf, state.READY, state.PENDING,
      ChannelHW.is_complete, ChannelHW.is_enabled, ChannelHW.enable,
      ChannelHW.disable, ChannelHW.set_enable, ChannelHW.is_error,
      ChannelHW.error_status, ChannelHW.clear_error, ChannelHW.clear_complete,
      *]

/-- Witness for C3: the Setup-error, Pending-transition, completion and
still-pending cases at concrete states. -/
theorem c3_interrupt_poll_transitions_witness :
    Interrupt.poll ⟨state.READY⟩ sysError 4 =
      some (.ready (.fail (.setup 77)), ⟨state.UNDEFINED⟩,
        { sysError with
            hw := { sysError.hw with ERQ := false, ERR := false }
            slot0 := { sysError.slot0 with waker := none } }) ∧
    Interrupt.poll ⟨state.READY⟩ sys0 4 =
      some (.pending, ⟨state.PENDING⟩,
        { sys0 with
            hw := { sys0.hw with ERQ := true }
            slot0 := { sys0.slot0 with waker := some 4 } }) ∧
    Interrupt.poll ⟨state.PENDING⟩ sysDoneSlotPending 4 =
      some (.ready (.ok ()), ⟨state.COMPLETE⟩,
        { sysDoneSlotPending with
            hw := { sysDoneSlotPending.hw with
              tcd := { sysDoneSlotPending.hw.tcd with DONE := false } } }) ∧
    Interrupt.poll ⟨state.PENDING⟩ sys0 4 = some (.pending, ⟨state.PENDING⟩, sys0) := by
  refine ⟨(c3_interrupt_poll_transitions ⟨state.READY⟩ sysError 4).1 rfl rfl rfl,
    (c3_interrupt_poll_transitions ⟨state.READY⟩ sys0 4).2.1 rfl rfl rfl,
    (c3_interrupt_poll_transitions ⟨state.PENDING⟩ sysDoneSlotPending 4).2.2.1 rfl rfl,
    (c3_interrupt_poll_transitions ⟨state.PENDING⟩ sys0 4).2.2.2 rfl rfl⟩

/-- Counterexample for C3 as stated: at a poll in the `Pending` local
state where the *shared-state slot* does not show `Complete` (the
interrupt handler has not run) but the hardware `DONE` flag is set, the
poll resolves `Ok(())` instead of remaining suspended — the code checks
the channel's hardware completion flag, not the slot's status. -/
theorem c3_slot_status_counterexample :
    sysDoneSlotPending.slot0.state = state.PENDING ∧
    state.PENDING ≠ state.COMPLETE ∧
    (Interrupt.poll ⟨state.PENDING⟩ sysDoneSlotPending 3).map (fun p => p.1) =
      some (.ready (.ok ())) := by
  decide

/-! ## C1: the pipe rendezvous protocol -/

/-- C1 (amended): for `Send::poll`/`Receive::poll`, provided the *other*
side's slot is not `Dropped` (the Dropped arm takes precedence over
every other arm): when the caller's own slot is `Ready`, the poll
writes its side's half of the transfer descriptor (source half for the
sender — who also programs the minor loop and the iteration count —,
destination half for the receiver), records the waker, sets its own
slot to `Pending`, and enables and software-starts the channel exactly
when the other side's slot was already `Pending`; when its own slot is
`Pending` it stays suspended; when `Complete` it resolves `Ok` (the
receiver returning the bytes the hardware deposited in its buffer).
Consequently, from a state where both calls have registered `Ready`,
whichever side polls second is the one that enables and starts the
single hardware transaction, in either order. -/
theorem c1_pipe_rendezvous_protocol (s : SysState) (w w2 addr addr2 len len2 mem : Nat)
    (hlen : len < 2147483648) :
    (s.slot1.state ≠ state.DROPPED →
      ((s.slot0.state = state.READY →
        (Send.poll s w addr len).map Prod.fst = some .pending ∧
        (Send.pollState s w addr len).hw.tcd.SADDR = addr ∧
        (Send.pollState s w addr len).hw.tcd.SOFF = 1 ∧
        (Send.pollState s w addr len).hw.tcd.SMOD = 0 ∧
        (Send.pollState s w addr len).hw.tcd.SLAST = -(len : Int) ∧
        (Send.pollState s w addr len).hw.tcd.NBYTES = 1 ∧
        (Send.pollState s w addr len).hw.tcd.CITER = toU16 len ∧
        (Send.pollState s w addr len).hw.tcd.BITER = toU16 len ∧
        (Send.pollState s w addr len).slot0 =
          { state := state.PENDING, waker := some w } ∧
        (Send.pollState s w addr len).slot1 = s.slot1 ∧
        (s.slot1.state = state.PENDING →
          (Send.pollState s w addr len).hw.ERQ = true ∧
          (Send.pollState s w addr len).hw.SSRT = true) ∧
        (s.slot1.state ≠ state.PENDING →
          (Send.pollState s w addr len).hw.ERQ = s.hw.ERQ ∧
          (Send.pollState s w addr len).hw.SSRT = s.hw.SSRT)) ∧
      (s.slot0.state = state.PENDING → Send.poll s w addr len = some (.pending, s)) ∧
      (s.slot0.state = state.COMPLETE →
        Send.poll s w addr len = some (.ready (.ok ()), s)))) ∧
    (s.slot0.state ≠ state.DROPPED →
      ((s.slot1.state = state.READY →
        (Receive.poll s w addr len mem).map Prod.fst = some .pending ∧
        (Receive.pollState s w addr len mem).hw.tcd.DADDR = addr ∧
        (Receive.pollState s w addr len mem).hw.tcd.DOFF = 1 ∧
        (Receive.pollState s w addr len mem).hw.tcd.DMOD = 0 ∧
        (Receive.pollState s w addr len mem).hw.tcd.DLAST_SGA = -(len : Int) ∧
        (Receive.pollState s w addr len mem).slot1 =
          { state := state.PENDING, waker := some w } ∧
        (Receive.pollState s w addr len mem).slot0 = s.slot0 ∧
        (s.slot0.state = state.PENDING →
          (Receive.pollState s w addr len mem).hw.ERQ = true ∧
          (Receive.pollState s w addr len mem).hw.SSRT = true) ∧
        (s.slot0.state ≠ state.PENDING →
          (Receive.pollState s w addr len mem).hw.ERQ = s.hw.ERQ ∧
          (Receive.pollState s w addr len mem).hw.SSRT = s.hw.SSRT)) ∧
      (s.slot1.state = state.PENDING →
        Receive.poll s w addr len mem = some (.pending, s)) ∧
      (s.slot1.state = state.COMPLETE →
        Receive.poll s w addr len mem = some (.ready (.ok mem), s)))) ∧
    (s.hw.ERQ = false → s.hw.SSRT = false →
     s.slot0.state = state.READY → s.slot1.state = state.READY →
      ((Send.pollState s w addr len).hw.ERQ = false ∧
       (Send.pollState s w addr len).hw.SSRT = false ∧
       (Receive.pollState (Send.pollState s w addr len) w2 addr2 len2 mem).hw.ERQ = true ∧
       (Receive.pollState (Send.pollState s w addr len) w2 addr2 len2 mem).hw.SSRT = true ∧
       (Receive.pollState s w2 addr2 len2 mem).hw.ERQ = false ∧
       (Receive.pollState s w2 addr2 len2 mem).hw.SSRT = false ∧
       (Send.pollState (Receive.pollState s w2 addr2 len2 mem) w addr len).hw.ERQ = true ∧
       (Send.pollState (Receive.pollState s w2 addr2 len2 mem) w addr len).hw.SSRT = true)) := by
  have hsl := wrapI32_neg_wrapI32_eq (Nat.le_of_lt hlen)
  refine ⟨fun hnd => ⟨fun h0 => ?_, fun h0 => ?_, fun h0 => ?_⟩,
    fun hnd => ⟨fun h1 => ?_, fun h1 => ?_, fun h1 => ?_⟩,
    fun hE hS h0 h1 => ?_⟩
  · by_cases hpen : s.slot1.state = state.PENDING <;>
      simp_all [Send.poll, Send.pollState, ChannelHW.set_minor_loop_elements,
        ChannelHW.set_minor_loop_bytes, ChannelHW.set_transfer_iterations,
        ChannelHW.set_source_transfer, ChannelHW.enable, ChannelHW.start,
        ChannelHW.set_enable, Transfer.buffer_linear, Transfer.buffer,
        wrapI16_one]
  · simp_all [Send.poll, state.PENDING, state.DROPPED, state.READY,
      state.COMPLETE]
  · simp_all [Send.poll, state.PENDING, state.DROPPED, state.READY,
      state.COMPLETE]
  · by_cases hpen : s.slot0.state = state.PENDING <;>
      simp_all [Receive.poll, Receive.pollState,
        ChannelHW.set_destination_transfer, ChannelHW.enable, ChannelHW.start,
        ChannelHW.set_enable, Transfer.buffer_linear, Transfer.buffer,
        wrapI16_one]
  · simp_all [Receive.poll, state.PENDING, state.DROPPED, state.READY,
      state.COMPLETE]
  · simp_all [Receive.poll, state.PENDING, state.DROPPED, state.READY,
      state.COMPLETE]
  · simp_all [Send.poll, Send.pollState, Receive.poll, Receive.pollState,
      ChannelHW.set_minor_loop_elements, ChannelHW.set_minor_loop_bytes,
      ChannelHW.set_transfer_iterations, ChannelHW.set_source_transfer,
      ChannelHW.set_destination_transfer, ChannelHW.enable, ChannelHW.start,
      ChannelHW.set_enable, state.READY, state.PENDING, state.DROPPED,
      state.COMPLETE]

/-- Witness for C1: on a pipe with both halves `Ready`, the first poll
does not start the channel and the second one does, and the sender's
descriptor half lands in the TCD. -/
theorem c1_pipe_rendezvous_protocol_witness :
    (Send.pollState sysBothReady 1 10 4).hw.ERQ = false ∧
    (Receive.pollState (Send.pollState sysBothReady 1 10 4) 2 20 4 0).hw.ERQ = true ∧
    (Receive.pollState (Send.pollState sysBothReady 1 10 4) 2 20 4 0).hw.SSRT = true ∧
    (Send.pollState sysBothReady 1 10 4).hw.tcd.SADDR = 10 ∧
    (Send.pollState sysBothReady 1 10 4).hw.tcd.SLAST = -4 := by
  have h := c1_pipe_rendezvous_protocol sysBothReady 1 2 10 20 4 4 0 (by decide)
  have ho := h.2.2 (by decide) (by decide) (by decide) (by decide)
  have hs := (h.1 (by decide)).1 (by decide)
  exact ⟨ho.1, ho.2.2.1, ho.2.2.2.1, hs.2.1, hs.2.2.2.2.1⟩

/-- Counterexample for C1 as stated: at a poll whose own slot is
`Ready` but whose peer slot is `Dropped`, the poll resolves
`Err(Cancelled)` immediately — it writes no descriptor and does not set
its own slot to `Pending`, because the Dropped arm precedes the Ready
arm. -/
theorem c1_dropped_precedence_counterexample :
    sysReadyPeerDropped.slot0.state = state.READY ∧
    Send.poll sysReadyPeerDropped 1 10 4 =
      some (.ready (.fail .cancelled), sysReadyPeerDropped) ∧
    (Send.pollState sysReadyPeerDropped 1 10 4).slot0.state ≠ state.PENDING := by
  decide

/-! ## C2: dropping a pipe half cancels the survivor permanently -/

theorem receive_poll_sender_dropped (s : SysState) (w addr len mem : Nat)
    (h : s.slot0.state = state.DROPPED) :
    Receive.poll s w addr len mem = some (.ready (.fail .cancelled), s) := by
  simp [Receive.poll, h]

theorem send_poll_receiver_dropped (s : SysState) (w addr len : Nat)
    (h : s.slot1.state = state.DROPPED) :
    Send.poll s w addr len = some (.ready (.fail .cancelled), s) := by
  simp [Send.poll, h]

theorem applyRxOp_preserves_dropped (s : SysState) (op : RxOp)
    (h : s.slot0.state = state.DROPPED) :
    (applyRxOp s op).slot0.state = state.DROPPED := by
  cases op with
  | init => simpa [applyRxOp, receive_init] using h
  | pollOp w addr len mem =>
      simp [applyRxOp, Receive.pollState,
        receive_poll_sender_dropped s w addr len mem h, h]
  | dropFut => simpa [applyRxOp, Receive.dropFut, Shared.set_state] using h

theorem applyRxOps_preserves_dropped (ops : List RxOp) :
    ∀ s : SysState, s.slot0.state = state.DROPPED →
      (applyRxOps s ops).slot0.state = state.DROPPED := by
  induction ops with
  | nil => intro s h; simpa [applyRxOps] using h
  | cons op rest ih =>
      intro s h
      have : applyRxOps s (op :: rest) = applyRxOps (applyRxOp s op) rest := rfl
      rw [this]
      exact ih _ (applyRxOp_preserves_dropped s op h)

theorem applyTxOp_preserves_dropped (s : SysState) (op : TxOp)
    (h : s.slot1.state = state.DROPPED) :
    (applyTxOp s op).slot1.state = state.DROPPED := by
  cases op with
  | init => simpa [applyTxOp, send_init] using h
  | pollOp w addr len =>
      simp [applyTxOp, Send.pollState,
        send_poll_receiver_dropped s w addr len h, h]
  | dropFut => simpa [applyTxOp, Send.dropFut, Shared.set_state] using h

theorem applyTxOps_preserves_dropped (ops : List TxOp) :
    ∀ s : SysState, s.slot1.state = state.DROPPED →
      (applyTxOps s ops).slot1.state = state.DROPPED := by
  induction ops with
  | nil => intro s h; simpa [applyTxOps] using h
  | cons op rest ih =>
      intro s h
      have : applyTxOps s (op :: rest) = applyTxOps (applyTxOp s op) rest := rfl
      rw [this]
      exact ih _ (applyTxOp_preserves_dropped s op h)

/-- C2: dropping the `Sender` sets the sender slot `Dropped` and wakes
exactly the waker parked in the receiver slot (taking it); once the
sender slot is `Dropped`, after *any* sequence of operations the
surviving receiver half can perform (starting a `receive`, polling it,
dropping its future), the sender slot is still `Dropped` and every
`Receive` poll resolves `Err(Cancelled)` leaving the state unchanged —
and symmetrically with the halves swapped. -/
theorem c2_pipe_drop_cancels_survivor (s : SysState) (w addr len mem : Nat)
    (ops : List RxOp) (tops : List TxOp) :
    ((Sender.drop s).1.slot0.state = state.DROPPED) ∧
    (s.slot1.waker = some w →
      (Sender.drop s).2 = [w] ∧ (Sender.drop s).1.slot1.waker = none) ∧
    (s.slot0.state = state.DROPPED →
      (applyRxOps s ops).slot0.state = state.DROPPED ∧
      Receive.poll (applyRxOps s ops) w addr len mem =
        some (.ready (.fail .cancelled), applyRxOps s ops)) ∧
    ((Receiver.drop s).1.slot1.state = state.DROPPED) ∧
    (s.slot0.waker = some w →
      (Receiver.drop s).2 = [w] ∧ (Receiver.drop s).1.slot0.waker = none) ∧
    (s.slot1.state = state.DROPPED →
      (applyTxOps s tops).slot1.state = state.DROPPED ∧
      Send.poll (applyTxOps s tops) w addr len =
        some (.ready (.fail .cancelled), applyTxOps s tops)) := by
  refine ⟨?_, fun hw1 => ?_, fun hd => ?_, ?_, fun hw0 => ?_, fun hd => ?_⟩
  · cases h : s.slot1.waker <;> simp [Sender.drop, h, Shared.set_state]
  · simp [Sender.drop, hw1, Shared.set_state]
  · have hinv := applyRxOps_preserves_dropped ops s hd
    exact ⟨hinv, receive_poll_sender_dropped _ w addr len mem hinv⟩
  · cases h : s.slot0.waker <;> simp [Receiver.drop, h, Shared.set_state]
  · simp [Receiver.drop, hw0, Shared.set_state]
  · have hinv := applyTxOps_preserves_dropped tops s hd
    exact ⟨hinv, send_poll_receiver_dropped _ w addr len hinv⟩

/-- Witness for C2: dropping the `Sender` over `sysRxParked` wakes
waker 7, and with the sender slot `Dropped` two receiver-side calls
(begin a receive, poll it) leave it `Dropped` and the next poll is
`Cancelled`. -/
theorem c2_pipe_drop_cancels_survivor_witness :
    (Sender.drop sysRxParked).1.slot0.state = state.DROPPED ∧
    (Sender.drop sysRxParked).2 = [7] ∧
    (applyRxOps (Sender.drop sysRxParked).1
        [RxOp.init, RxOp.pollOp 1 2 4 0]).slot0.state = state.DROPPED ∧
    Receive.poll (applyRxOps (Sender.drop sysRxParked).1
        [RxOp.init, RxOp.pollOp 1 2 4 0]) 1 2 4 0 =
      some (.ready (.fail .cancelled),
        applyRxOps (Sender.drop sysRxParked).1 [RxOp.init, RxOp.pollOp 1 2 4 0]) := by
  have h := c2_pipe_drop_cancels_survivor (Sender.drop sysRxParked).1 1 2 4 0
    [RxOp.init, RxOp.pollOp 1 2 4 0] []
  have hd := h.2.2.1 (by decide)
  have hwk := (c2_pipe_drop_cancels_survivor sysRxParked 7 2 4 0 [] []).2.1 (by decide)
  exact ⟨by decide, hwk.1, hd.1, hd.2⟩

/-! ## C6: peripheral request withdrawn on every exit path -/

/-- C6: every exit path of `receive`/`transfer` — success, `Setup`
error, `ScheduledTransfer` error, or cancellation by drop — ends with
the peripheral's DMA request disabled and the busy-wait on the
hardware-service signal finished (`HRS` clear), the channel itself
disabled; the returned value on each completed path is as the error
taxonomy prescribes (`Ok(buffer.len())` on success). -/
theorem c6_exit_paths_release_peripheral (sig aAddr eid bufAddr len elemSize : Nat)
    (s0 : SysState) (w : Nat) :
    (s0.hw.ERQ = true →
      (receive_run sig aAddr eid bufAddr len elemSize s0 w).map
          (fun p => (p.1, p.2.periph, p.2.hw.HRS, p.2.hw.ERQ)) =
        some (.fail .scheduledTransfer, false, false, false) ∧
      (transfer_run sig aAddr eid bufAddr len elemSize s0 w).map
          (fun p => (p.1, p.2.periph, p.2.hw.HRS, p.2.hw.ERQ)) =
        some (.fail .scheduledTransfer, false, false, false)) ∧
    (s0.hw.ERQ = false → s0.hw.ERR = true →
      (receive_run sig aAddr eid bufAddr len elemSize s0 w).map
          (fun p => (p.1, p.2.periph, p.2.hw.HRS, p.2.hw.ERQ)) =
        some (.fail (.setup s0.hw.ES), false, false, false) ∧
      (transfer_run sig aAddr eid bufAddr len elemSize s0 w).map
          (fun p => (p.1, p.2.periph, p.2.hw.HRS, p.2.hw.ERQ)) =
        some (.fail (.setup s0.hw.ES), false, false, false)) ∧
    (s0.hw.ERQ = false → s0.hw.ERR = false →
      (receive_run sig aAddr eid bufAddr len elemSize s0 w).map
          (fun p => (p.1, p.2.periph, p.2.hw.HRS, p.2.hw.ERQ)) =
        some (.ok len, false, false, false) ∧
      (transfer_run sig aAddr eid bufAddr len elemSize s0 w).map
          (fun p => (p.1, p.2.periph, p.2.hw.HRS, p.2.hw.ERQ)) =
        some (.ok len, false, false, false) ∧
      (receive_cancelled sig aAddr eid bufAddr len elemSize s0 w).map
          (fun sf => (sf.periph, sf.hw.HRS, sf.hw.ERQ)) =
        some (false, false, false) ∧
      (transfer_cancelled sig aAddr eid bufAddr len elemSize s0 w).map
          (fun sf => (sf.periph, sf.hw.HRS, sf.hw.ERQ)) =
        some (false, false, false)) := by
  refine ⟨fun hE => ?_, fun hE hR => ?_, fun hE hR => ?_⟩ <;>
    simp_all [receive_run, transfer_run, receive_cancelled, transfer_cancelled,
      interrupt_await_run, interrupt_await_cancelled, receive_setup,
      transfer_setup, interrupt, Interrupt.poll, Interrupt.drop,
      peripheral_on_drop, wait_hardware_signal_clear, disable_peripheral,
      enable_peripheral, ChannelHW.set_trigger_from_hardware,
      ChannelHW.set_source_transfer, ChannelHW.set_destination_transfer,
      ChannelHW.set_minor_loop_elements, ChannelHW.set_minor_loop_bytes,
      ChannelHW.set_transfer_iterations, ChannelHW.set_disable_on_completion,
      ChannelHW.set_interrupt_on_completion, ChannelHW.is_complete,
      ChannelHW.is_enabled, ChannelHW.is_error, ChannelHW.enable,
      ChannelHW.disable, ChannelHW.set_enable, ChannelHW.error_status,
      ChannelHW.clear_error, ChannelHW.clear_complete,
      state.READY, state.PENDING]

/-- Witness for C6: the three hypothesis combinations at `sysEnabled`,
`sysError` and `sys0`. -/
theorem c6_exit_paths_release_peripheral_witness :
    (receive_run 3 100 0 200 16 1 sysEnabled 1).map
        (fun p => (p.1, p.2.periph, p.2.hw.HRS, p.2.hw.ERQ)) =
      some (.fail .scheduledTransfer, false, false, false) ∧
    (receive_run 3 100 0 200 16 1 sysError 1).map
        (fun p => (p.1, p.2.periph, p.2.hw.HRS, p.2.hw.ERQ)) =
      some (.fail (.setup 77), false, false, false) ∧
    (receive_run 3 100 0 200 16 1 sys0 1).map
        (fun p => (p.1, p.2.periph, p.2.hw.HRS, p.2.hw.ERQ)) =
      some (.ok 16, false, false, false) ∧
    (transfer_cancelled 3 100 0 200 16 1 sys0 1).map
        (fun sf => (sf.periph, sf.hw.HRS, sf.hw.ERQ)) =
      some (false, false, false) := by
  refine ⟨(c6_exit_paths_release_peripheral 3 100 0 200 16 1 sysEnabled 1).1
      (by decide) |>.1, ?_, ?_, ?_⟩
  · exact ((c6_exit_paths_release_peripheral 3 100 0 200 16 1 sysError 1).2.1
      (by decide) (by decide)).1
  · exact ((c6_exit_paths_release_peripheral 3 100 0 200 16 1 sys0 1).2.2
      (by decide) (by decide)).1
  · exact ((c6_exit_paths_release_peripheral 3 100 0 200 16 1 sys0 1).2.2
      (by decide) (by decide)).2.2.2

/-! ## C9: the iteration count is truncated to u16, the return is not -/

/-- C9: `receive`/`transfer` program `buffer.len() as u16` major-loop
iterations — `len` reduced modulo 2^16 — into `CITER`/`BITER`, while a
successful call returns `Ok(buffer.len())` untruncated; at
`len = 65536` the channel is configured for 0 iterations (fewer
elements than the reported count). -/
theorem c9_iteration_count_truncated (sig srcAddr eid bufAddr len elemSize : Nat)
    (s0 : SysState) (w : Nat) :
    ((receive_setup sig srcAddr eid bufAddr len elemSize s0).hw.tcd.CITER = len % 65536 ∧
     (receive_setup sig srcAddr eid bufAddr len elemSize s0).hw.tcd.BITER = len % 65536 ∧
     (transfer_setup sig srcAddr eid bufAddr len elemSize s0).hw.tcd.CITER = len % 65536) ∧
    (s0.hw.ERQ = false → s0.hw.ERR = false →
      (receive_run sig srcAddr eid bufAddr len elemSize s0 w).map Prod.fst =
        some (.ok len)) ∧
    ((receive_setup sig srcAddr eid bufAddr 65536 elemSize s0).hw.tcd.CITER = 0 ∧
     65535 < 65536) := by
  refine ⟨?_, fun hE hR => ?_, ?_⟩
  · simp [receive_setup, transfer_setup, enable_peripheral, toU16,
      ChannelHW.set_trigger_from_hardware, ChannelHW.set_source_transfer,
      ChannelHW.set_destination_transfer, ChannelHW.set_minor_loop_elements,
      ChannelHW.set_minor_loop_bytes, ChannelHW.set_transfer_iterations]
  · simp_all [receive_run, interrupt_await_run, receive_setup, interrupt,
      Interrupt.poll, Interrupt.drop, peripheral_on_drop,
      wait_hardware_signal_clear, disable_peripheral, enable_peripheral,
      ChannelHW.set_trigger_from_hardware, ChannelHW.set_source_transfer,
      ChannelHW.set_destination_transfer, ChannelHW.set_minor_loop_elements,
      ChannelHW.set_minor_loop_bytes, ChannelHW.set_transfer_iterations,
      ChannelHW.set_disable_on_completion, ChannelHW.set_interrupt_on_completion,
      ChannelHW.is_complete, ChannelHW.is_enabled, ChannelHW.is_error,
      ChannelHW.enable, ChannelHW.disable, ChannelHW.set_enable,
      ChannelHW.clear_complete, state.READY, state.PENDING]
  · refine ⟨?_, by decide⟩
    simp [receive_setup, enable_peripheral, toU16,
      ChannelHW.set_trigger_from_hardware, ChannelHW.set_source_transfer,
      ChannelHW.set_destination_transfer, ChannelHW.set_minor_loop_elements,
      ChannelHW.set_minor_loop_bytes, ChannelHW.set_transfer_iterations]

/-- Witness for C9: a 70000-element buffer programs 4464 iterations yet
reports 70000 transferred on success. -/
theorem c9_iteration_count_truncated_witness :
    (receive_setup 3 100 0 200 70000 1 sys0).hw.tcd.CITER = 4464 ∧
    (receive_run 3 100 0 200 70000 1 sys0 1).map Prod.fst = some (.ok 70000) := by
  have h := c9_iteration_count_truncated 3 100 0 200 70000 1 sys0 1
  exact ⟨by rw [h.1.1], h.2.1 (by decide) (by decide)⟩

end ImxrtAsyncHal
